import Mathlib

/-!
Verification of the simple-hubctl hub-control program (src/main.rs).

The embedding below translates the protocol layer (the `HubControl` request
encoders and response decoders), the topology-resolver loop from `main`, and
the `TogglableDevice` session cache into Lean. Machine integers are modelled
as `Nat` (all values involved are small and no arithmetic overflows), byte
buffers as `List Nat`, and code that can panic (out-of-bounds `Vec` indexing)
returns `Option`, with `none` standing for the panic.
-/

namespace SimpleHubctl

/-- From `enum UsbDescriptorType` in main.rs: standard hub descriptor. -/
def UsbDescriptorType.Hub : Nat := 0x29

/-- From `enum UsbDescriptorType` in main.rs: superspeed hub descriptor. -/
def UsbDescriptorType.SuperSpeedHub : Nat := 0x2a

/-- From `enum UsbDeviceClass` in main.rs. -/
def UsbDeviceClass.Hub : Nat := 0x09

/-- From `enum UsbRequest` in main.rs. -/
def UsbRequest.GetStatus : Nat := 0

/-- From `enum UsbRequest` in main.rs. -/
def UsbRequest.ClearFeature : Nat := 1

/-- From `enum UsbRequest` in main.rs. -/
def UsbRequest.SetFeature : Nat := 3

/-- From `enum UsbRequest` in main.rs. -/
def UsbRequest.GetDescriptor : Nat := 6

/-- nusb `ControlType::Class` discriminant. -/
def ControlType.Class : Nat := 1

/-- nusb `Recipient::Device` discriminant. -/
def Recipient.Device : Nat := 0

/-- nusb `Recipient::Other` discriminant (port recipient). -/
def Recipient.Other : Nat := 3

/-- nusb `ControlIn` packet as filled in by the code (length is the
response-buffer size requested). -/
structure ControlIn where
  control_type : Nat
  recipient : Nat
  request : Nat
  value : Nat
  index : Nat
  length : Nat

/-- nusb `ControlOut` packet as filled in by the code; `data` is the payload. -/
structure ControlOut where
  control_type : Nat
  recipient : Nat
  request : Nat
  value : Nat
  index : Nat
  data : List Nat

/-- Rust `u16::to_be` as evaluated on the little-endian host the program
targets: the two bytes of the 16-bit value are swapped. -/
def u16_to_be (x : Nat) : Nat := (x % 256) * 256 + (x / 256 % 256)

/-- The fields of nusb `DeviceInfo` that the program reads. `port_chain` is
the ordered list of 1-based port numbers from the bus root to the device. -/
structure DeviceRecord where
  vendor_id : Nat
  product_id : Nat
  usb_version : Nat
  bus_id : Nat
  device_class : Nat
  port_chain : List Nat

/-- `struct HubControl`: the handle itself is external; the program-visible
state is the SuperSpeed flag (field `.1` in the Rust tuple struct). -/
structure HubControl where
  is_superspeed : Bool

/-- `HubControl::new`: the flag is `device_info.usb_version() >= 0x0300`. -/
def HubControl.new (info : DeviceRecord) : HubControl :=
  { is_superspeed := decide (0x0300 ≤ info.usb_version) }

/-- The descriptor type chosen inside `HubControl::port_count`:
`SuperSpeedHub` when the session is superspeed, else `Hub`. -/
def HubControl.descriptor_type (h : HubControl) : Nat :=
  if h.is_superspeed then UsbDescriptorType.SuperSpeedHub else UsbDescriptorType.Hub

/-- The `ControlIn` built by `HubControl::port_count` (main.rs:53-65). The
Rust code applies `u16::to_be` to the descriptor type, placing it in the
high byte of the wValue field. -/
def HubControl.port_count_request (h : HubControl) : ControlIn :=
  { control_type := ControlType.Class
    recipient := Recipient.Device
    request := UsbRequest.GetDescriptor
    value := u16_to_be h.descriptor_type
    index := 0
    length := 12 }

/-- Response interpretation of `HubControl::port_count` (main.rs:68):
`Ok(response[2])`; indexing a too-short response would panic (`none`). -/
def port_count_decode (response : List Nat) : Option Nat :=
  response[2]?

/-- The `ControlIn` built by `HubControl::status` (main.rs:72-79). -/
def HubControl.status_request (port : Nat) : ControlIn :=
  { control_type := ControlType.Class
    recipient := Recipient.Other
    request := UsbRequest.GetStatus
    value := 0
    index := port
    length := 4 }

/-- Response interpretation of `HubControl::status` (main.rs:82):
`Ok(response[1] & 1 != 0)`. -/
def status_decode (response : List Nat) : Option Bool :=
  (response[1]?).map (fun b => b &&& 1 != 0)

/-- The `ControlOut` built by `HubControl::set_port` (main.rs:86-97):
request `SetFeature` when enabled else `ClearFeature`, value `1 << 3`
(FEAT_POWER), index the port, empty payload. -/
def HubControl.set_port_request (port : Nat) (enabled : Bool) : ControlOut :=
  { control_type := ControlType.Class
    recipient := Recipient.Other
    request := if enabled then UsbRequest.SetFeature else UsbRequest.ClearFeature
    value := 1 <<< 3
    index := port
    data := [] }

/-- Modelled from the spec: the external transport/device state that the
three control requests act on. The spec (§4.1) fixes the wire contract: the
4-byte port-status response carries the PORT_POWER bit as bit 0 of byte 1,
and set/clear of feature selector 8 writes exactly that bit. `power p` is
the PORT_POWER bit of port `p`. -/
structure HubState where
  power : Nat → Bool

/-- Modelled from the spec: the device answers a GetStatus transfer for
`port` with a 4-byte response whose byte 1, bit 0 is the PORT_POWER bit. -/
def HubState.status_response (s : HubState) (port : Nat) : List Nat :=
  [0, if s.power port then 1 else 0, 0, 0]

/-- Modelled from the spec: a SetFeature/ClearFeature transfer with feature
selector 8 writes the PORT_POWER bit of the addressed port. -/
def HubState.apply_set_port (s : HubState) (port : Nat) (enabled : Bool) : HubState :=
  { power := fun p => if p = port then enabled else s.power p }

/-- `HubControl::status` against the device model: decode the 4-byte
response (main.rs:71-83). -/
def HubControl.status (s : HubState) (port : Nat) : Option Bool :=
  status_decode (s.status_response port)

/-- `HubControl::set_port` against the device model (main.rs:85-101). -/
def HubControl.set_port (s : HubState) (port : Nat) (enabled : Bool) : HubState :=
  s.apply_set_port port enabled

/-- `HubControl::toggle` (main.rs:113-115): read the status, then issue
`set_port` with the inverted value. -/
def HubControl.toggle (s : HubState) (port : Nat) : Option HubState :=
  (HubControl.status s port).map (fun st => HubControl.set_port s port (!st))

/-- The sentinel name the resolver pre-fills every slot with
(main.rs:242). -/
def no_device : String := "<no device>"

/-- The three guards of the topology-resolver loop (main.rs:245-253): same
bus, chain exactly one element longer than the hub's, and the chain's first
`pc.len()` elements equal to the hub's chain. -/
def child_matches (hub cand : DeviceRecord) : Bool :=
  cand.bus_id == hub.bus_id &&
  cand.port_chain.length == hub.port_chain.length + 1 &&
  cand.port_chain.take hub.port_chain.length == hub.port_chain

/-- `cpc[cpc.len() - 1]` (main.rs:255); the loop only reaches this on a
nonempty chain, where it is the last element. -/
def chain_port_number (cand : DeviceRecord) : Nat :=
  cand.port_chain.getLast?.getD 0

/-- The condition guarding the `ERROR: Port number is 0!` report
(main.rs:256-258): the candidate passed all three matching guards and its
last chain element is 0. -/
def reports_topology_error (hub cand : DeviceRecord) : Bool :=
  child_matches hub cand && chain_port_number cand == 0

/-- One iteration of the resolver loop body (main.rs:244-277) for candidate
`cand`: non-matching candidates leave `children` unchanged; a matching
candidate with port number 0 is reported and skipped; otherwise
`children[port_number - 1] = name` is performed, which panics (`none`) when
the index is out of bounds. `nameOf` abstracts the usb-ids / product-string
display-name resolution (main.rs:260-275), which queries the external
product database. -/
def resolve_step (hub : DeviceRecord) (nameOf : DeviceRecord → String)
    (children : List String) (cand : DeviceRecord) : Option (List String) :=
  if child_matches hub cand then
    if chain_port_number cand = 0 then some children
    else if chain_port_number cand - 1 < children.length then
      some (children.set (chain_port_number cand - 1) (nameOf cand))
    else none
  else some children

/-- The resolver's `for child_device in &devices` loop, one candidate at a
time; a panic in any iteration aborts the loop (`none`). -/
def resolve_loop (hub : DeviceRecord) (nameOf : DeviceRecord → String) :
    List String → List DeviceRecord → Option (List String)
  | children, [] => some children
  | children, cand :: rest =>
    match resolve_step hub nameOf children cand with
    | some updated => resolve_loop hub nameOf updated rest
    | none => none

/-- The whole resolver (main.rs:240-277): slots are initialised to the
`no_device` sentinel (`children.resize_with(port_count, ...)`), then every
candidate record is scanned. -/
def resolve_children (hub : DeviceRecord) (nameOf : DeviceRecord → String)
    (port_count : Nat) (devices : List DeviceRecord) : Option (List String) :=
  resolve_loop hub nameOf (List.replicate port_count no_device) devices

/-- `struct TogglableDevice`: hub display name plus the cached per-port
(name, power-state) list. -/
structure TogglableDevice where
  name : String
  children : List (String × Bool)

/-- The `for (index, child_name) in device.children.into_iter().enumerate()`
loop of `TogglableDevice::new` (main.rs:146-149): port `index + 1` is
queried and a failed query (`.ok().unwrap_or(false)`) defaults to `false`.
`status_of` abstracts the outcome of `control.status(port)`: `none` is a
transfer error. -/
def TogglableDevice.new_children (status_of : Nat → Option Bool) :
    Nat → List String → List (String × Bool)
  | _, [] => []
  | idx, child_name :: rest =>
    (child_name, (status_of (idx + 1)).getD false) ::
      TogglableDevice.new_children status_of (idx + 1) rest

/-- `TogglableDevice::new` (main.rs:143-155), after the hub handle opened. -/
def TogglableDevice.new (hub_name : String) (names : List String)
    (status_of : Nat → Option Bool) : TogglableDevice :=
  { name := hub_name, children := TogglableDevice.new_children status_of 0 names }

/-- `self.children[port - 1].1 = !self.children[port - 1].1`
(main.rs:159) for an in-bounds index. -/
def negate_flag_at (children : List (String × Bool)) (i : Nat) : List (String × Bool) :=
  match children[i]? with
  | some c => children.set i (c.1, !c.2)
  | none => children

/-- `TogglableDevice::toggle` (main.rs:157-161). `transfer_ok` abstracts the
outcome of `self.control.toggle(port)`: on error the `?` returns early and
the cache is untouched (success flag `false`); on success the cached flag of
entry `port - 1` is negated, which panics (`none`) out of bounds. -/
def TogglableDevice.toggle (d : TogglableDevice) (port : Nat)
    (transfer_ok : Bool) : Option (TogglableDevice × Bool) :=
  if transfer_ok then
    if port - 1 < d.children.length then
      some ({ d with children := negate_flag_at d.children (port - 1) }, true)
    else none
  else some (d, false)

/-- Helper: `b &&& 1 != 0` is exactly "bit 0 of `b` is set". -/
lemma and_one_bne_zero (b : Nat) : (b &&& 1 != 0) = decide (b % 2 = 1) := by
  rw [Nat.and_one_is_mod]
  rcases Nat.mod_two_eq_zero_or_one b with h | h <;> simp [h]

/-- C1: for every valid 4-byte status response, `status` returns `true` iff
bit 0 of byte index 1 is set, regardless of byte index 0 (and of bytes 2 and
3). -/
theorem status_bit_semantics (b0 b1 b2 b3 : Nat) :
    status_decode [b0, b1, b2, b3] = some (decide (b1 % 2 = 1)) ∧
    (status_decode [b0, b1, b2, b3] = some true ↔ b1 % 2 = 1) := by
  have h : status_decode [b0, b1, b2, b3] = some (decide (b1 % 2 = 1)) := by
    simp only [status_decode, and_one_bne_zero]
    rfl
  refine ⟨h, ?_⟩
  rw [h]
  rcases Nat.mod_two_eq_zero_or_one b1 with h1 | h1 <;> simp [h1]

/-- C2: `set_port` always encodes feature selector 8 in the value field,
request code `SET_FEATURE` (3) exactly when enabled and `CLEAR_FEATURE` (1)
exactly when disabled, with empty payload and the port as index. -/
theorem set_port_encoding (port : Nat) (enabled : Bool) :
    (HubControl.set_port_request port enabled).value = 8 ∧
    (HubControl.set_port_request port enabled).request =
      (if enabled then 3 else 1) ∧
    (HubControl.set_port_request port enabled).data = [] ∧
    (HubControl.set_port_request port enabled).index = port := by
  cases enabled <;>
    simp [HubControl.set_port_request, UsbRequest.SetFeature, UsbRequest.ClearFeature]

/-- C6: for every 12-byte descriptor response, `port_count` returns the byte
at offset 2. -/
theorem port_count_byte_two (response : List Nat) (h : response.length = 12) :
    port_count_decode response = some (response.getD 2 0) := by
  have h2 : 2 < response.length := by omega
  rw [port_count_decode, List.getElem?_eq_getElem h2, List.getD_eq_getElem?_getD,
    List.getElem?_eq_getElem h2]
  rfl

/-- Witness for C6 at the spec's example response `[0x09, 0x04, 0x07, ...]`
(12 bytes): the returned port count is 7. -/
theorem port_count_byte_two_witness :
    port_count_decode [0x09, 0x04, 0x07, 0, 0, 0, 0, 0, 0, 0, 0, 0] = some 7 := by
  rw [port_count_byte_two [0x09, 0x04, 0x07, 0, 0, 0, 0, 0, 0, 0, 0, 0] (by decide)]
  rfl

/-- C7: the session's superspeed flag is set iff the reported USB version is
at least `0x0300`, and `port_count` requests descriptor type `0x2A` when the
flag is set and `0x29` otherwise (the Rust code byte-swaps the type into the
high byte of wValue via `u16::to_be`). -/
theorem superspeed_descriptor_type (info : DeviceRecord) :
    (HubControl.new info).is_superspeed = decide (0x0300 ≤ info.usb_version) ∧
    (HubControl.new info).descriptor_type =
      (if 0x0300 ≤ info.usb_version then 0x2a else 0x29) ∧
    (HubControl.port_count_request (HubControl.new info)).value =
      u16_to_be (if 0x0300 ≤ info.usb_version then 0x2a else 0x29) := by
  refine ⟨rfl, ?_, ?_⟩ <;>
  · rcases Nat.lt_or_ge info.usb_version 0x0300 with h | h <;>
      simp [HubControl.new, HubControl.descriptor_type, HubControl.port_count_request,
        UsbDescriptorType.SuperSpeedHub, UsbDescriptorType.Hub, Nat.not_le.mpr, h,
        Nat.not_le_of_lt h]

/-- Helper: against the device model, `status` reports exactly the
PORT_POWER bit. -/
lemma status_eval (s : HubState) (port : Nat) :
    HubControl.status s port = some (s.power port) := by
  cases h : s.power port <;>
    simp [HubControl.status, HubState.status_response, status_decode, h]

/-- Helper: `toggle` reads the current PORT_POWER bit and writes its
negation. -/
lemma toggle_eval (s : HubState) (port : Nat) :
    HubControl.toggle s port =
      some (HubControl.set_port s port (!(s.power port))) := by
  rw [HubControl.toggle, status_eval]
  rfl

/-- C5: applying `toggle` twice in succession, with no intervening external
change to the device, restores the port's originally reported power state
(indeed the PORT_POWER bit of every port). -/
theorem toggle_twice_restores (s : HubState) (port : Nat) :
    ∃ s1 s2, HubControl.toggle s port = some s1 ∧
      HubControl.toggle s1 port = some s2 ∧
      (∀ q, s2.power q = s.power q) ∧
      HubControl.status s2 port = HubControl.status s port := by
  refine ⟨HubControl.set_port s port (!(s.power port)), _, toggle_eval s port,
    toggle_eval _ port, ?_, ?_⟩
  · intro q
    by_cases hq : q = port <;>
      simp [HubControl.set_port, HubState.apply_set_port, hq]
  · rw [status_eval, status_eval]
    simp [HubControl.set_port, HubState.apply_set_port]

/-- Helper: entry `i` of the session-creation cache pairs the `i`-th child
name with the status of port `i + idx + 1`, defaulted to `false`. -/
lemma new_children_getElem (status_of : Nat → Option Bool) :
    ∀ (names : List String) (idx i : Nat),
      (TogglableDevice.new_children status_of idx names)[i]? =
        (names[i]?).map (fun n => (n, (status_of (idx + i + 1)).getD false)) := by
  intro names
  induction names with
  | nil => intro idx i; simp [TogglableDevice.new_children]
  | cons name rest ih =>
    intro idx i
    cases i with
    | zero => simp [TogglableDevice.new_children]
    | succ j =>
      rw [TogglableDevice.new_children]
      simp only [List.getElem?_cons_succ]
      rw [ih (idx + 1) j]
      have harith : idx + 1 + j + 1 = idx + (j + 1) + 1 := by omega
      rw [harith]

/-- Helper: session creation yields one cache entry per child name. -/
lemma new_children_length (status_of : Nat → Option Bool) :
    ∀ (names : List String) (idx : Nat),
      (TogglableDevice.new_children status_of idx names).length = names.length := by
  intro names
  induction names with
  | nil => intro idx; rfl
  | cons name rest ih =>
    intro idx
    simp [TogglableDevice.new_children, ih]

/-- C9: at session creation every port `1..=portCount` has its status
queried (entry `i` of the cache holds the result for port `i + 1`), a
failed query (`none`) defaults that port's displayed state to `false`, and
construction always completes with one cache entry per child name. -/
theorem session_creation_status (hub_name : String) (names : List String)
    (status_of : Nat → Option Bool) (i : Nat) :
    ((TogglableDevice.new hub_name names status_of).children)[i]? =
      (names[i]?).map (fun n => (n, (status_of (i + 1)).getD false)) ∧
    ((TogglableDevice.new hub_name names status_of).children).length =
      names.length := by
  constructor
  · rw [TogglableDevice.new]
    simpa using new_children_getElem status_of names 0 i
  · exact new_children_length status_of names 0

/-- C10: for an in-range port, a successful `TogglableDevice::toggle`
negates exactly the cached powered flag of entry `port - 1`, preserving the
hub name, the cache length, every other entry, and the entry's own name;
when the underlying control transfer fails, the whole cache is returned
unchanged. -/
theorem toggle_frame (d : TogglableDevice) (port : Nat)
    (h1 : 1 ≤ port) (h2 : port ≤ d.children.length) :
    (∃ d2, TogglableDevice.toggle d port true = some (d2, true) ∧
      d2.name = d.name ∧
      d2.children.length = d.children.length ∧
      (∀ j, j ≠ port - 1 → d2.children[j]? = d.children[j]?) ∧
      d2.children[port - 1]? =
        (d.children[port - 1]?).map (fun c => (c.1, !c.2))) ∧
    TogglableDevice.toggle d port false = some (d, false) := by
  have hlt : port - 1 < d.children.length := by omega
  have hget : d.children[port - 1]? = some (d.children.get ⟨port - 1, hlt⟩) := by
    rw [List.getElem?_eq_getElem hlt]
    rfl
  have hneg : negate_flag_at d.children (port - 1) =
      d.children.set (port - 1)
        ((d.children.get ⟨port - 1, hlt⟩).1, !(d.children.get ⟨port - 1, hlt⟩).2) := by
    rw [negate_flag_at, hget]
  constructor
  · refine ⟨{ d with children := negate_flag_at d.children (port - 1) }, ?_, rfl,
      ?_, ?_, ?_⟩
    · rw [TogglableDevice.toggle]
      simp [hlt]
    · rw [hneg]
      simp
    · intro j hj
      rw [hneg, List.getElem?_set_ne (fun he => hj he.symm)]
    · rw [hneg, List.getElem?_set_eq_of_lt _ hlt, hget]
      rfl
  · rfl

/-- Witness for C10: a two-port cache with port 1 toggled on success, and
left untouched on transfer failure. -/
theorem toggle_frame_witness :
    (∃ d2, TogglableDevice.toggle ⟨"hub", [("a", false), ("b", true)]⟩ 1 true =
        some (d2, true) ∧
      d2.name = (⟨"hub", [("a", false), ("b", true)]⟩ : TogglableDevice).name ∧
      d2.children.length =
        (⟨"hub", [("a", false), ("b", true)]⟩ : TogglableDevice).children.length ∧
      (∀ j, j ≠ 1 - 1 →
        d2.children[j]? =
          (⟨"hub", [("a", false), ("b", true)]⟩ : TogglableDevice).children[j]?) ∧
      d2.children[1 - 1]? =
        ((⟨"hub", [("a", false), ("b", true)]⟩ :
            TogglableDevice).children[1 - 1]?).map (fun c => (c.1, !c.2))) ∧
    TogglableDevice.toggle ⟨"hub", [("a", false), ("b", true)]⟩ 1 false =
      some (⟨"hub", [("a", false), ("b", true)]⟩, false) :=
  toggle_frame ⟨"hub", [("a", false), ("b", true)]⟩ 1 (by decide) (by decide)

/-- The spec's worked example: a hub on bus 1 with address chain `[2]`. -/
def hub_ex : DeviceRecord :=
  { vendor_id := 0x2109, product_id := 0x2817, usb_version := 0x0210,
    bus_id := 1, device_class := 0x09, port_chain := [2] }

/-- Example candidate 1: chain `[2, 1]` on the hub's bus. -/
def cand_a : DeviceRecord :=
  { vendor_id := 1, product_id := 10, usb_version := 0x0200,
    bus_id := 1, device_class := 0, port_chain := [2, 1] }

/-- Example candidate 2: chain `[2, 3]` on the hub's bus. -/
def cand_b : DeviceRecord :=
  { vendor_id := 1, product_id := 11, usb_version := 0x0200,
    bus_id := 1, device_class := 0, port_chain := [2, 3] }

/-- Example candidate 3: chain `[5, 1]` on the hub's bus (different root). -/
def cand_c : DeviceRecord :=
  { vendor_id := 1, product_id := 12, usb_version := 0x0200,
    bus_id := 1, device_class := 0, port_chain := [5, 1] }

/-- A candidate whose chain `[2, 0]` matches the hub but reports port 0. -/
def cand_zero : DeviceRecord :=
  { vendor_id := 1, product_id := 13, usb_version := 0x0200,
    bus_id := 1, device_class := 0, port_chain := [2, 0] }

/-- A candidate whose chain `[2, 2]` reports port 2, beyond a 1-port hub. -/
def cand_oob : DeviceRecord :=
  { vendor_id := 1, product_id := 14, usb_version := 0x0200,
    bus_id := 1, device_class := 0, port_chain := [2, 2] }

/-- A concrete display-name resolution for the examples. -/
def name_ex : DeviceRecord → String := fun c => "device " ++ toString c.product_id

/-- C3 counterexample: the candidate with chain `[2, 0]` is on the hub's
bus, its chain is one element longer, and its chain's leading elements
equal the hub's chain `[2]` — all three of the claim's conditions — yet the
resolver assigns it to no port slot: every slot still holds the sentinel,
none holds the candidate's name. -/
theorem resolver_assignment_iff_cex :
    child_matches hub_ex cand_zero = true ∧
    name_ex cand_zero ≠ no_device ∧
    resolve_children hub_ex name_ex 3 [cand_zero] =
      some [no_device, no_device, no_device] := by
  refine ⟨rfl, ?_, rfl⟩
  decide

/-- Helper: a resolver-loop iteration leaves slot `i` untouched unless the
candidate matches and names port `i + 1`. -/
lemma resolve_step_preserves_slot (hub : DeviceRecord)
    (nameOf : DeviceRecord → String) (children updated : List String)
    (cand : DeviceRecord) (i : Nat)
    (hstep : resolve_step hub nameOf children cand = some updated)
    (hn : ¬(child_matches hub cand = true ∧ chain_port_number cand = i + 1)) :
    updated[i]? = children[i]? := by
  by_cases hm : child_matches hub cand = true
  · by_cases hz : chain_port_number cand = 0
    · simp [resolve_step, hm, hz] at hstep
      subst hstep
      rfl
    · by_cases hb : chain_port_number cand - 1 < children.length
      · simp [resolve_step, hm, hz, hb] at hstep
        subst hstep
        rw [List.getElem?_set_ne (fun he => hn ⟨hm, by omega⟩)]
      · simp [resolve_step, hm, hz, hb] at hstep
  · simp [resolve_step, hm] at hstep
    subst hstep
    rfl

/-- Helper: slot `i` of a completed resolver loop is unchanged when no
scanned candidate matches and names port `i + 1`. -/
lemma resolve_loop_preserves_slot (hub : DeviceRecord)
    (nameOf : DeviceRecord → String) (i : Nat) :
    ∀ (devices : List DeviceRecord) (children res : List String),
      resolve_loop hub nameOf children devices = some res →
      (∀ cand ∈ devices,
        ¬(child_matches hub cand = true ∧ chain_port_number cand = i + 1)) →
      res[i]? = children[i]? := by
  intro devices
  induction devices with
  | nil =>
    intro children res h hn
    rw [← Option.some_inj.mp h]
  | cons cand rest ih =>
    intro children res h hn
    rw [resolve_loop] at h
    cases hstep : resolve_step hub nameOf children cand with
    | none => rw [hstep] at h; exact Option.noConfusion h
    | some updated =>
      rw [hstep] at h
      rw [ih updated res h (fun c hc => hn c (List.mem_cons_of_mem _ hc)),
        resolve_step_preserves_slot hub nameOf children updated cand i hstep
          (hn cand (List.mem_cons_self _ _))]

/-- C3 (amended): a candidate is assigned to a port slot iff it is on the
hub's bus, its chain is exactly one element longer, its chain's leading
elements equal the hub's chain, AND its last chain element is nonzero (and,
for the assignment to complete rather than panic, at most the slot count);
the assigned 1-based port is the last chain element, every port named by no
matching candidate keeps the sentinel, and the spec's worked example — hub
chain `[2]`, port count 3, candidates `[2,1]`, `[2,3]`, `[5,1]` — assigns
candidates 1 and 2 to ports 1 and 3, leaves port 2 empty and excludes
candidate 3. -/
theorem resolver_assignment_amended :
    (∀ hub nameOf children cand,
      child_matches hub cand = true → chain_port_number cand ≠ 0 →
      chain_port_number cand - 1 < children.length →
      resolve_step hub nameOf children cand =
        some (children.set (chain_port_number cand - 1) (nameOf cand))) ∧
    (∀ hub nameOf children cand,
      child_matches hub cand = false →
      resolve_step hub nameOf children cand = some children) ∧
    (∀ hub nameOf children cand,
      child_matches hub cand = true → chain_port_number cand = 0 →
      resolve_step hub nameOf children cand = some children) ∧
    (∀ hub nameOf port_count devices res i,
      resolve_children hub nameOf port_count devices = some res → i < port_count →
      (∀ cand ∈ devices,
        ¬(child_matches hub cand = true ∧ chain_port_number cand = i + 1)) →
      res[i]? = some no_device) ∧
    resolve_children hub_ex name_ex 3 [cand_a, cand_b, cand_c] =
      some [name_ex cand_a, no_device, name_ex cand_b] := by
  refine ⟨?_, ?_, ?_, ?_, rfl⟩
  · intro hub nameOf children cand hm hz hb
    simp [resolve_step, hm, hz, hb]
  · intro hub nameOf children cand hm
    simp [resolve_step, hm]
  · intro hub nameOf children cand hm hz
    simp [resolve_step, hm, hz]
  · intro hub nameOf port_count devices res i h hi hn
    rw [resolve_children] at h
    rw [resolve_loop_preserves_slot hub nameOf i devices _ res h hn,
      List.getElem?_replicate_of_lt hi]

/-- Witness for C3 (amended) at the worked example: candidate `[2, 1]` is
assigned to slot 0 (port 1) of the freshly initialised 3-slot list. -/
theorem resolver_assignment_amended_witness :
    resolve_step hub_ex name_ex (List.replicate 3 no_device) cand_a =
      some ((List.replicate 3 no_device).set 0 (name_ex cand_a)) :=
  resolver_assignment_amended.1 hub_ex name_ex (List.replicate 3 no_device)
    cand_a (by decide) (by decide) (by decide)

/-- C4: a matching candidate whose last chain element is 0 triggers the
topology-error report and is skipped: the slot list is returned unchanged.
At the concrete input — hub chain `[2]`, candidate chain `[2, 0]`, port
count 3 — the error is reported and every slot keeps the sentinel. -/
theorem port_zero_skipped :
    (∀ hub nameOf children cand,
      reports_topology_error hub cand = true →
      resolve_step hub nameOf children cand = some children) ∧
    reports_topology_error hub_ex cand_zero = true ∧
    resolve_children hub_ex name_ex 3 [cand_zero] =
      some (List.replicate 3 no_device) := by
  refine ⟨?_, rfl, rfl⟩
  intro hub nameOf children cand hr
  rw [reports_topology_error, Bool.and_eq_true] at hr
  have hz : chain_port_number cand = 0 := by simpa using hr.2
  simp [resolve_step, hr.1, hz]

/-- Witness for C4 at the concrete input: the `[2, 0]` candidate leaves the
3-slot sentinel list unchanged. -/
theorem port_zero_skipped_witness :
    resolve_step hub_ex name_ex (List.replicate 3 no_device) cand_zero =
      some (List.replicate 3 no_device) :=
  port_zero_skipped.1 hub_ex name_ex (List.replicate 3 no_device) cand_zero
    (by decide)

/-- Helper: the resolver loop completes without panicking, preserving the
slot-list length, provided every matching candidate's port number is within
the slot count. -/
lemma resolve_loop_total (hub : DeviceRecord) (nameOf : DeviceRecord → String) :
    ∀ (devices : List DeviceRecord) (children : List String),
      (∀ cand ∈ devices, child_matches hub cand = true →
        chain_port_number cand ≤ children.length) →
      ∃ res, resolve_loop hub nameOf children devices = some res ∧
        res.length = children.length := by
  intro devices
  induction devices with
  | nil =>
    intro children _
    exact ⟨children, rfl, rfl⟩
  | cons cand rest ih =>
    intro children hbound
    by_cases hm : child_matches hub cand = true
    · by_cases hz : chain_port_number cand = 0
      · have hstep : resolve_step hub nameOf children cand = some children := by
          simp [resolve_step, hm, hz]
        obtain ⟨res, hres, hlen⟩ := ih children
          (fun c hc h => hbound c (List.mem_cons_of_mem _ hc) h)
        exact ⟨res, by rw [resolve_loop, hstep]; exact hres, hlen⟩
      · have hb : chain_port_number cand - 1 < children.length := by
          have := hbound cand (List.mem_cons_self _ _) hm
          omega
        have hstep : resolve_step hub nameOf children cand =
            some (children.set (chain_port_number cand - 1) (nameOf cand)) := by
          simp [resolve_step, hm, hz, hb]
        obtain ⟨res, hres, hlen⟩ :=
          ih (children.set (chain_port_number cand - 1) (nameOf cand))
            (fun c hc h => by
              rw [List.length_set]
              exact hbound c (List.mem_cons_of_mem _ hc) h)
        refine ⟨res, by rw [resolve_loop, hstep]; exact hres, ?_⟩
        rw [hlen, List.length_set]
    · have hstep : resolve_step hub nameOf children cand = some children := by
        simp [resolve_step, hm]
      obtain ⟨res, hres, hlen⟩ := ih children
        (fun c hc h => hbound c (List.mem_cons_of_mem _ hc) h)
      exact ⟨res, by rw [resolve_loop, hstep]; exact hres, hlen⟩

/-- C8 (amended): every completed slot assignment is in bounds — whenever
every matching candidate's port number is at most the reported port count,
the resolver finishes without panicking and keeps exactly `port_count`
slots; but the code checks no upper bound, so a matching candidate whose
nonzero port number exceeds the slot count makes the assignment
`children[port_number - 1] = name` panic (`none`), aborting the resolver
instead of being skipped. -/
theorem resolver_in_bounds_amended :
    (∀ hub nameOf port_count devices,
      (∀ cand ∈ devices, child_matches hub cand = true →
        chain_port_number cand ≤ port_count) →
      ∃ res, resolve_children hub nameOf port_count devices = some res ∧
        res.length = port_count) ∧
    (∀ hub nameOf children cand,
      child_matches hub cand = true → chain_port_number cand ≠ 0 →
      children.length < chain_port_number cand →
      resolve_step hub nameOf children cand = none) := by
  constructor
  · intro hub nameOf port_count devices hbound
    have := resolve_loop_total hub nameOf devices
      (List.replicate port_count no_device)
      (fun c hc h => by
        rw [List.length_replicate]
        exact hbound c hc h)
    simpa [resolve_children, List.length_replicate] using this
  · intro hub nameOf children cand hm hz hb
    have hnb : ¬(chain_port_number cand - 1 < children.length) := by omega
    simp [resolve_step, hm, hz, hnb]

/-- Witness for C8 (amended): for the worked example's in-bounds candidates
the resolver completes with 3 slots. -/
theorem resolver_in_bounds_witness :
    ∃ res, resolve_children hub_ex name_ex 3 [cand_a, cand_b, cand_c] =
        some res ∧ res.length = 3 :=
  resolver_in_bounds_amended.1 hub_ex name_ex 3 [cand_a, cand_b, cand_c]
    (by decide)

/-- C8 counterexample: against a 1-port hub with chain `[2]`, the matching
candidate with chain `[2, 2]` (port number 2) drives the slot assignment
out of bounds: the resolver panics (`none`) instead of completing, so the
claim that a candidate whose port number exceeds the port count "does not
crash the resolver" fails on the code. -/
theorem resolver_oob_panics :
    child_matches hub_ex cand_oob = true ∧
    chain_port_number cand_oob = 2 ∧
    resolve_children hub_ex name_ex 1 [cand_oob] = none :=
  ⟨rfl, rfl, rfl⟩
